import Mathlib

/-!
Verification of the AI news summarizer pipeline (`summarizer.py`).

The script is a single linear pipeline: fetch articles (live API or sample
data), filter them by content length, summarize each retained article via an
LLM chat-completion call, assemble output records, and write them to a JSON
file.  The development below is a shallow embedding of that pipeline:

* articles and output records are structures with optional fields, mirroring
  the absent-tolerant `dict.get` accesses of the source;
* the per-article loops (`filtered_articles`, `summarized_articles`) are
  embedded as the same append-accumulator folds the source uses;
* the remote LLM call is an oracle parameter `llm` returning either the model
  text or the exception message the `except` branch would catch;
* the JSON layer of the standard library is modelled at the level of JSON
  values (`JValue`): writing the output file stores the serialized value,
  reading parses it back.
-/

set_option maxRecDepth 8192

/-- A source article as fetched from the news API or the sample file.  Every
field the script reads via `article.get(...)` is optional; `none` models an
absent key. -/
structure SourceArticle where
  id : Option String
  title : Option String
  content : Option String
  source_title : Option String
  pub_date : Option String
  article_link : Option String
  language : Option String
  topics : Option (List String)
deriving Repr, DecidableEq

/-- The output record built by `create_summary_output`.  String metadata
fields are optional because `article.get(key)` with no default yields `None`
(JSON `null`) for an absent key. -/
structure SummaryRecord where
  id : Option String
  title : Option String
  source : Option String
  published : Option String
  url : Option String
  language : Option String
  topics : List String
  original_content_length : Nat
  ai_summary : String
deriving Repr, DecidableEq

/-- Configuration constant `MIN_CONTENT_LENGTH` from the script. -/
def MIN_CONTENT_LENGTH : Nat := 300

/-- Configuration constant `NUM_ARTICLES_TO_PROCESS` from the script. -/
def NUM_ARTICLES_TO_PROCESS : Nat := 5

/-- The filter condition of step 2: `content = article.get("content", "")`
followed by `if content and len(content) >= threshold`.  Python truthiness of
a string is non-emptiness. -/
def qualifies (threshold : Nat) (a : SourceArticle) : Bool :=
  (!((a.content.getD "") == "")) && (threshold ≤ (a.content.getD "").length)

/-- The filtering loop of step 2, with the threshold as a parameter:
`filtered_articles = []` followed by appending each qualifying article in
input order. -/
def filterArticles (threshold : Nat) (articles : List SourceArticle) : List SourceArticle :=
  articles.foldl (fun acc a => if qualifies threshold a then acc ++ [a] else acc) []

/-- The `filtered_articles` list of the script: the filtering loop run at the
configured `MIN_CONTENT_LENGTH`. -/
def filtered_articles (articles : List SourceArticle) : List SourceArticle :=
  filterArticles MIN_CONTENT_LENGTH articles

/-- The remote chat-completion call is modelled as an oracle from the content
and title strings to either the raw model text (`Except.ok`) or the message of
the exception the call raised (`Except.error`). -/
def LlmOracle : Type :=
  String → String → Except String String

/-- The function `summarize_article`: on success it returns the stripped model
text, on failure the string `"Error generating summary: " + str(e)`. -/
def summarize_article (llm : LlmOracle) (content title : String) : String :=
  match llm content title with
  | Except.ok s => s.trim
  | Except.error e => "Error generating summary: " ++ e

/-- The function `create_summary_output`: combines one article with its
computed summary string.  `article.get(key)` with no default passes absence
through (`none`); `topics` defaults to `[]`; the content length is taken of
`article.get("content", "")`. -/
def create_summary_output (article : SourceArticle) (summary : String) : SummaryRecord :=
  { id := article.id
    title := article.title
    source := article.source_title
    published := article.pub_date
    url := article.article_link
    language := article.language
    topics := article.topics.getD []
    original_content_length := (article.content.getD "").length
    ai_summary := summary }

/-- The processing loop of step 5 over `filtered[:n]`: for each article, one
LLM call on `article.get("content", "")` and `article.get("title", "")`, then
append the assembled record. -/
def processArticles (llm : LlmOracle) (filtered : List SourceArticle) (n : Nat) :
    List SummaryRecord :=
  (filtered.take n).foldl
    (fun acc a =>
      acc ++ [create_summary_output a (summarize_article llm (a.content.getD "") (a.title.getD ""))])
    []

/-- The `summarized_articles` list of the script: the processing loop run on
the filtered list, truncated to `NUM_ARTICLES_TO_PROCESS`. -/
def summarized_articles (llm : LlmOracle) (articles : List SourceArticle) : List SummaryRecord :=
  processArticles llm (filtered_articles articles) NUM_ARTICLES_TO_PROCESS

/-- The step-3 credential check: `if not OPENAI_API_KEY or OPENAI_API_KEY ==
"your_openai_api_key_here"` — an empty or placeholder key counts as missing. -/
def openaiKeyMissing (k : String) : Bool :=
  (k == "") || (k == "your_openai_api_key_here")

/-- The step-1 credential check: `if NDH_API_KEY and NDH_API_KEY !=
"your_ndh_api_key_here"` — the live API is used only for a non-empty,
non-placeholder key. -/
def ndhKeyProvided (k : String) : Bool :=
  (!(k == "")) && (!(k == "your_ndh_api_key_here"))

/-- Which article source step 1 selects. -/
inductive ArticleSource where
  | liveApi : ArticleSource
  | sampleData : ArticleSource
deriving Repr, DecidableEq

/-- Step 1 source selection as a function of the news-API key. -/
def chooseSource (k : String) : ArticleSource :=
  if ndhKeyProvided k then ArticleSource.liveApi else ArticleSource.sampleData

/-- How a run of the script ends: `exit(1)` on an empty filtered list (step 2),
`exit(1)` on a missing LLM key (step 3), or normal completion carrying the
records written to the output file (steps 5–6). -/
inductive RunResult where
  | exitNoArticles : RunResult
  | exitNoApiKey : RunResult
  | finished : List SummaryRecord → RunResult
deriving Repr, DecidableEq

/-- The pipeline from the filtered list onward, in source order: the
empty-filter check of step 2, then the key check of step 3, then the
processing loop.  The second component counts HTTP calls made to the
chat-completion endpoint (one per processed article). -/
def runPipeline (openaiKey : String) (llm : LlmOracle) (articles : List SourceArticle) :
    RunResult × Nat :=
  let filtered := filtered_articles articles
  if filtered.length = 0 then (RunResult.exitNoArticles, 0)
  else if openaiKeyMissing openaiKey then (RunResult.exitNoApiKey, 0)
  else (RunResult.finished (processArticles llm filtered NUM_ARTICLES_TO_PROCESS),
        (filtered.take NUM_ARTICLES_TO_PROCESS).length)

/-- The process exit code of a run: both early exits call `exit(1)`; a
finished run falls off the end of the script (exit code 0, here `none`). -/
def exitCodeOf : RunResult → Option Nat
  | RunResult.exitNoArticles => some 1
  | RunResult.exitNoApiKey => some 1
  | RunResult.finished _ => none

/-- Contents of `summarized_articles.json` after a run: step 6 is reached only
on a finished run. -/
def outputFileOf : RunResult → Option (List SummaryRecord)
  | RunResult.finished records => some records
  | _ => none

/-- An article with every key absent. -/
def emptyArticle : SourceArticle :=
  { id := none, title := none, content := none, source_title := none,
    pub_date := none, article_link := none, language := none, topics := none }

/-- An oracle whose remote call always raises. -/
def errLlm : LlmOracle :=
  fun _ _ => Except.error "boom"

/-- JSON values, modelling the values handled by the standard json module. -/
inductive JValue where
  | null : JValue
  | bool : Bool → JValue
  | num : Int → JValue
  | str : String → JValue
  | arr : List JValue → JValue
  | obj : List (String × JValue) → JValue

/-- Key lookup in a JSON object, as `"data" in data` / `data["data"]`. -/
def lookupField : List (String × JValue) → String → Option JValue
  | [], _ => none
  | (k, v) :: rest, key => if k == key then some v else lookupField rest key

/-- The sample-data shape dispatch of step 1: a dict containing a `data` key
yields `data["data"]`, a bare list is taken as-is, anything else raises
`ValueError("Unexpected sample data format")`. -/
def extractArticles (v : JValue) : Except String JValue :=
  match v with
  | JValue.obj fields =>
      match lookupField fields "data" with
      | some d => Except.ok d
      | none => Except.error "Unexpected sample data format"
  | JValue.arr xs => Except.ok (JValue.arr xs)
  | _ => Except.error "Unexpected sample data format"

/-- Modelled from the spec: the shapes the loader accepts are "either a bare
list or an object with a `data` key"; used to state that every other shape is
rejected. -/
def shapeAccepted : JValue → Bool
  | JValue.obj fields => (lookupField fields "data").isSome
  | JValue.arr _ => true
  | _ => false

/-- JSON encoding of an optional string: `None` serializes as `null`. -/
def optStrToJson : Option String → JValue
  | none => JValue.null
  | some s => JValue.str s

/-- JSON decoding of an optional string. -/
def jToOptStr : JValue → Option (Option String)
  | JValue.null => some none
  | JValue.str s => some (some s)
  | _ => none

/-- JSON decoding of a string. -/
def jToStr : JValue → Option String
  | JValue.str s => some s
  | _ => none

/-- JSON decoding of a nonnegative integer. -/
def jToNat : JValue → Option Nat
  | JValue.num (Int.ofNat n) => some n
  | _ => none

/-- JSON decoding of a list of strings. -/
def jStrList : List JValue → Option (List String)
  | [] => some []
  | JValue.str s :: rest =>
      match jStrList rest with
      | some ts => some (s :: ts)
      | none => none
  | _ :: _ => none

/-- JSON decoding of a string array. -/
def jToStrList : JValue → Option (List String)
  | JValue.arr xs => jStrList xs
  | _ => none

/-- Serialization of one record, with the key order of
`create_summary_output`. -/
def SummaryRecord.toJson (r : SummaryRecord) : JValue :=
  JValue.obj
    [("id", optStrToJson r.id),
     ("title", optStrToJson r.title),
     ("source", optStrToJson r.source),
     ("published", optStrToJson r.published),
     ("url", optStrToJson r.url),
     ("language", optStrToJson r.language),
     ("topics", JValue.arr (r.topics.map JValue.str)),
     ("original_content_length", JValue.num (Int.ofNat r.original_content_length)),
     ("ai_summary", JValue.str r.ai_summary)]

/-- Parsing one record back from its JSON object. -/
def SummaryRecord.fromJson (v : JValue) : Option SummaryRecord :=
  match v with
  | JValue.obj [(k1, j1), (k2, j2), (k3, j3), (k4, j4), (k5, j5), (k6, j6), (k7, j7), (k8, j8), (k9, j9)] =>
      if (k1 == "id") && (k2 == "title") && (k3 == "source") && (k4 == "published")
          && (k5 == "url") && (k6 == "language") && (k7 == "topics")
          && (k8 == "original_content_length") && (k9 == "ai_summary") then
        match jToOptStr j1, jToOptStr j2, jToOptStr j3, jToOptStr j4, jToOptStr j5,
            jToOptStr j6, jToStrList j7, jToNat j8, jToStr j9 with
        | some id, some title, some source, some published, some url, some language,
            some topics, some n, some s =>
            some { id := id, title := title, source := source, published := published,
                   url := url, language := language, topics := topics,
                   original_content_length := n, ai_summary := s }
        | _, _, _, _, _, _, _, _, _ => none
      else none
  | _ => none

/-- Serialization of the whole output list, as written by `json.dump` in
step 6. -/
def serializeRecords (rs : List SummaryRecord) : JValue :=
  JValue.arr (rs.map SummaryRecord.toJson)

/-- Decoding of a list of record objects. -/
def parseRecordList : List JValue → Option (List SummaryRecord)
  | [] => some []
  | v :: rest =>
      match SummaryRecord.fromJson v, parseRecordList rest with
      | some r, some rs => some (r :: rs)
      | _, _ => none

/-- Parsing the output file back, as `json.load` followed by reading each
record. -/
def parseRecords (v : JValue) : Option (List SummaryRecord) :=
  match v with
  | JValue.arr xs => parseRecordList xs
  | _ => none

/-- An article whose content is 300 characters long. -/
def longArticle : SourceArticle :=
  { emptyArticle with content := some (String.mk (List.replicate 300 'a')) }

theorem filter_loop_eq {α : Type} (p : α → Bool) (l acc : List α) :
    l.foldl (fun acc a => if p a then acc ++ [a] else acc) acc = acc ++ l.filter p := by
  induction l generalizing acc with
  | nil => simp
  | cons a l ih =>
    simp only [List.foldl_cons, List.filter_cons]
    cases h : p a <;> simp [h, ih]

theorem map_loop_eq {α β : Type} (f : α → β) (l : List α) (acc : List β) :
    l.foldl (fun acc a => acc ++ [f a]) acc = acc ++ l.map f := by
  induction l generalizing acc with
  | nil => simp
  | cons a l ih => simp [ih]

theorem filterArticles_eq_filter (t : Nat) (l : List SourceArticle) :
    filterArticles t l = l.filter (qualifies t) := by
  have h := filter_loop_eq (qualifies t) l []
  simpa [filterArticles] using h

/-- C1: for every input list and threshold (default 300), the content filter
returns exactly the subsequence of articles whose `content` is non-empty and
at least threshold characters long, in input order, so its length is the
count of qualifying articles. -/
theorem filter_articles_spec (t : Nat) (l : List SourceArticle) :
    filterArticles t l = l.filter (qualifies t)
    ∧ List.Sublist (filterArticles t l) l
    ∧ (filterArticles t l).length = l.countP (qualifies t)
    ∧ (∀ a, qualifies t a = true ↔ (a.content.getD "" ≠ "" ∧ t ≤ (a.content.getD "").length))
    ∧ MIN_CONTENT_LENGTH = 300 := by
  have he := filterArticles_eq_filter t l
  refine ⟨he, ?_, ?_, ?_, rfl⟩
  · rw [he]
    exact List.filter_sublist l
  · rw [he]
    simp [List.countP_eq_length_filter]
  · intro a
    simp [qualifies]

/-- C2: the output of a run is the filtered list truncated to the configured
count (5), mapped through per-article summarization and assembly, so each
record corresponds to one filtered article in order, and the output length
exceeds neither the configured count nor the filtered length. -/
theorem summarized_articles_spec (llm : LlmOracle) (articles : List SourceArticle) :
    summarized_articles llm articles
      = (List.take NUM_ARTICLES_TO_PROCESS (filtered_articles articles)).map
          (fun a => create_summary_output a
            (summarize_article llm (a.content.getD "") (a.title.getD "")))
    ∧ (summarized_articles llm articles).length ≤ NUM_ARTICLES_TO_PROCESS
    ∧ (summarized_articles llm articles).length ≤ (filtered_articles articles).length
    ∧ NUM_ARTICLES_TO_PROCESS = 5 := by
  have he : summarized_articles llm articles
      = (List.take NUM_ARTICLES_TO_PROCESS (filtered_articles articles)).map
          (fun a => create_summary_output a
            (summarize_article llm (a.content.getD "") (a.title.getD ""))) := by
    have h := map_loop_eq
      (fun a => create_summary_output a
        (summarize_article llm (a.content.getD "") (a.title.getD "")))
      (List.take NUM_ARTICLES_TO_PROCESS (filtered_articles articles)) []
    simpa [summarized_articles, processArticles] using h
  refine ⟨he, ?_, ?_, rfl⟩
  · rw [he]
    simp [List.length_take]
  · rw [he]
    simp [List.length_take]

/-- C3: the `original_content_length` field of every assembled record equals
the character length of the source article's `content` field, and is 0 when
that field is absent. -/
theorem original_content_length_spec (a : SourceArticle) (s : String) :
    (create_summary_output a s).original_content_length = (a.content.getD "").length
    ∧ (a.content = none → (create_summary_output a s).original_content_length = 0) := by
  refine ⟨rfl, ?_⟩
  intro h
  simp [create_summary_output, h]

/-- Witness for C3 at a concrete article with absent content. -/
theorem original_content_length_spec_witness :
    (create_summary_output emptyArticle "x").original_content_length
        = (emptyArticle.content.getD "").length
    ∧ (create_summary_output emptyArticle "x").original_content_length = 0 :=
  ⟨(original_content_length_spec emptyArticle "x").1,
   (original_content_length_spec emptyArticle "x").2 rfl⟩

/-- C4 counterexample: for an article with an absent `title` key, the
assembled record's `title` is `none` (Python `None`, JSON `null`), not the
empty string the claim requires for string fields. -/
theorem create_summary_output_default_cex :
    (create_summary_output emptyArticle "x").title = none
    ∧ (create_summary_output emptyArticle "x").title ≠ some "" := by
  decide

/-- C4 amended: field extraction never raises; absence passes through as
`none` for the six `article.get(key)` metadata fields, while `topics`
defaults to the empty list and `content` to the empty string (so the length
is 0). -/
theorem create_summary_output_fields (a : SourceArticle) (s : String) :
    (create_summary_output a s).id = a.id
    ∧ (create_summary_output a s).title = a.title
    ∧ (create_summary_output a s).source = a.source_title
    ∧ (create_summary_output a s).published = a.pub_date
    ∧ (create_summary_output a s).url = a.article_link
    ∧ (create_summary_output a s).language = a.language
    ∧ (create_summary_output a s).topics = a.topics.getD []
    ∧ (create_summary_output a s).ai_summary = s
    ∧ (a.topics = none → (create_summary_output a s).topics = [])
    ∧ (a.content = none → (create_summary_output a s).original_content_length = 0) := by
  refine ⟨rfl, rfl, rfl, rfl, rfl, rfl, rfl, rfl, ?_, ?_⟩ <;> intro h <;>
    simp [create_summary_output, h]

/-- Witness for the amended C4 at a concrete article with every key absent. -/
theorem create_summary_output_fields_witness :
    (create_summary_output emptyArticle "x").topics = []
    ∧ (create_summary_output emptyArticle "x").original_content_length = 0 :=
  ⟨(create_summary_output_fields emptyArticle "x").2.2.2.2.2.2.2.2.1 rfl,
   (create_summary_output_fields emptyArticle "x").2.2.2.2.2.2.2.2.2 rfl⟩

/-- C5: if the filtered list is empty the run halts with exit code 1 before
any summarization call (zero completion-endpoint calls), producing no record
and writing no output file. -/
theorem empty_filter_halts (k : String) (llm : LlmOracle) (articles : List SourceArticle)
    (h : filtered_articles articles = []) :
    runPipeline k llm articles = (RunResult.exitNoArticles, 0)
    ∧ exitCodeOf (runPipeline k llm articles).1 = some 1
    ∧ outputFileOf (runPipeline k llm articles).1 = none := by
  have hl : (filtered_articles articles).length = 0 := by
    rw [h]
    rfl
  have he : runPipeline k llm articles = (RunResult.exitNoArticles, 0) := by
    simp [runPipeline, hl]
  refine ⟨he, ?_, ?_⟩ <;> rw [he] <;> rfl

/-- Witness for C5 on the empty input list. -/
theorem empty_filter_halts_witness :
    runPipeline "" errLlm [] = (RunResult.exitNoArticles, 0)
    ∧ exitCodeOf (runPipeline "" errLlm []).1 = some 1
    ∧ outputFileOf (runPipeline "" errLlm []).1 = none :=
  empty_filter_halts "" errLlm [] rfl

/-- C6: with a missing LLM credential the run makes zero HTTP calls to the
completion endpoint and never reaches the finished state, for every input
list. -/
theorem missing_llm_key_no_calls (k : String) (llm : LlmOracle) (articles : List SourceArticle)
    (h : openaiKeyMissing k = true) :
    (runPipeline k llm articles).2 = 0
    ∧ (∀ rs, (runPipeline k llm articles).1 ≠ RunResult.finished rs) := by
  have he : runPipeline k llm articles = (RunResult.exitNoArticles, 0)
      ∨ runPipeline k llm articles = (RunResult.exitNoApiKey, 0) := by
    by_cases hl : (filtered_articles articles).length = 0
    · left
      simp [runPipeline, hl]
    · right
      simp [runPipeline, hl, h]
  cases he with
  | inl he =>
    refine ⟨?_, ?_⟩
    · rw [he]
    · intro rs
      rw [he]
      simp
  | inr he =>
    refine ⟨?_, ?_⟩
    · rw [he]
    · intro rs
      rw [he]
      simp

/-- Witness for C6 with the empty key on a one-article input that passes the
filter. -/
theorem missing_llm_key_no_calls_witness :
    (runPipeline "" errLlm [longArticle]).2 = 0
    ∧ (runPipeline "" errLlm [longArticle]).1 ≠ RunResult.finished [] :=
  ⟨(missing_llm_key_no_calls "" errLlm [longArticle] rfl).1,
   (missing_llm_key_no_calls "" errLlm [longArticle] rfl).2 []⟩

/-- C7: when the remote call for an article raises, the summary string is
exactly the raised message prefixed by "Error generating summary: " (so it
begins with "Error generating summary:"), and the processing loop still
yields one record per the first `n` filtered articles whatever the oracle
does. -/
theorem summarize_failure_isolated (llm : LlmOracle) (c t e : String)
    (h : llm c t = Except.error e) (filtered : List SourceArticle) (n : Nat) :
    summarize_article llm c t = "Error generating summary: " ++ e
    ∧ (∃ rest, summarize_article llm c t = "Error generating summary:" ++ rest)
    ∧ (processArticles llm filtered n).length = min n filtered.length := by
  have h1 : summarize_article llm c t = "Error generating summary: " ++ e := by
    simp [summarize_article, h]
  have h2 := map_loop_eq
    (fun a => create_summary_output a
      (summarize_article llm (a.content.getD "") (a.title.getD "")))
    (filtered.take n) []
  have h3 : processArticles llm filtered n
      = (filtered.take n).map
          (fun a => create_summary_output a
            (summarize_article llm (a.content.getD "") (a.title.getD ""))) := by
    simpa [processArticles] using h2
  refine ⟨h1, ⟨" " ++ e, ?_⟩, ?_⟩
  · rw [h1, ← String.append_assoc]
    rfl
  · rw [h3]
    simp [List.length_take]

/-- Witness for C7 with an always-raising oracle on a one-article list. -/
theorem summarize_failure_isolated_witness :
    summarize_article errLlm "c" "t" = "Error generating summary: boom"
    ∧ (∃ rest, summarize_article errLlm "c" "t" = "Error generating summary:" ++ rest)
    ∧ (processArticles errLlm [longArticle] 1).length = min 1 [longArticle].length :=
  summarize_failure_isolated errLlm "c" "t" "boom" rfl [longArticle] 1

theorem jStrList_map_str (ts : List String) : jStrList (ts.map JValue.str) = some ts := by
  induction ts with
  | nil => rfl
  | cons s ts ih => simp [jStrList, ih]

theorem fromJson_toJson (r : SummaryRecord) :
    SummaryRecord.fromJson (SummaryRecord.toJson r) = some r := by
  cases r with
  | mk id title source published url language topics ocl ai =>
    cases id <;> cases title <;> cases source <;> cases published <;> cases url <;>
      cases language <;>
      simp [SummaryRecord.toJson, SummaryRecord.fromJson, optStrToJson, jToOptStr,
        jToStrList, jStrList_map_str, jToNat, jToStr]

/-- C8: serializing any in-memory record list to the output JSON value and
parsing it back yields the same list, field for field. -/
theorem json_roundtrip (rs : List SummaryRecord) :
    parseRecords (serializeRecords rs) = some rs := by
  have h : ∀ l : List SummaryRecord, parseRecordList (l.map SummaryRecord.toJson) = some l := by
    intro l
    induction l with
    | nil => rfl
    | cons r l ih => simp [parseRecordList, fromJson_toJson, ih]
  simp [parseRecords, serializeRecords, h]

/-- C9: the sample-data loader takes the `data` member of an object that has
one, takes a bare list as-is, and fails with the format `ValueError` on every
other shape, producing no article list. -/
theorem sample_data_shape :
    (∀ fields d, lookupField fields "data" = some d →
        extractArticles (JValue.obj fields) = Except.ok d)
    ∧ (∀ xs, extractArticles (JValue.arr xs) = Except.ok (JValue.arr xs))
    ∧ (∀ v, shapeAccepted v = false →
        extractArticles v = Except.error "Unexpected sample data format") := by
  refine ⟨?_, ?_, ?_⟩
  · intro fields d h
    simp [extractArticles, h]
  · intro xs
    rfl
  · intro v h
    cases v with
    | obj fields =>
      have h2 : lookupField fields "data" = none := by
        cases hl : lookupField fields "data" with
        | none => rfl
        | some d =>
          exfalso
          simp [shapeAccepted, hl] at h
      simp [extractArticles, h2]
    | arr xs =>
      exfalso
      simp [shapeAccepted] at h
    | null => rfl
    | bool b => rfl
    | num n => rfl
    | str s => rfl

/-- Witness for C9 on a one-member object, the empty bare list, and a bare
string. -/
theorem sample_data_shape_witness :
    extractArticles (JValue.obj [("data", JValue.null)]) = Except.ok JValue.null
    ∧ extractArticles (JValue.arr []) = Except.ok (JValue.arr [])
    ∧ extractArticles (JValue.str "x") = Except.error "Unexpected sample data format" :=
  ⟨sample_data_shape.1 [("data", JValue.null)] JValue.null rfl,
   sample_data_shape.2.1 [],
   sample_data_shape.2.2 (JValue.str "x") rfl⟩

/-- C10: the literal placeholder credentials behave exactly like absent ones:
the news placeholder selects the sample-data source just as the empty key
does, and the LLM placeholder makes the run indistinguishable from a run with
the empty key, which can only end in an early exit. -/
theorem placeholder_keys_treated_as_missing :
    chooseSource "your_ndh_api_key_here" = ArticleSource.sampleData
    ∧ chooseSource "" = ArticleSource.sampleData
    ∧ openaiKeyMissing "your_openai_api_key_here" = true
    ∧ openaiKeyMissing "" = true
    ∧ (∀ llm articles, runPipeline "your_openai_api_key_here" llm articles
        = runPipeline "" llm articles)
    ∧ (∀ llm articles rs,
        (runPipeline "your_openai_api_key_here" llm articles).1 ≠ RunResult.finished rs) := by
  have hk1 : openaiKeyMissing "your_openai_api_key_here" = true := rfl
  have hk2 : openaiKeyMissing "" = true := rfl
  refine ⟨rfl, rfl, hk1, hk2, ?_, ?_⟩
  · intro llm articles
    by_cases hl : (filtered_articles articles).length = 0
    · simp [runPipeline, hl]
    · simp [runPipeline, hl, hk1, hk2]
  · intro llm articles rs
    by_cases hl : (filtered_articles articles).length = 0
    · simp [runPipeline, hl]
    · simp [runPipeline, hl, hk1]

/-- Witness for C10 with the placeholder LLM key on a one-article input. -/
theorem placeholder_keys_witness :
    (runPipeline "your_openai_api_key_here" errLlm [longArticle]).1 ≠ RunResult.finished []
    ∧ runPipeline "your_openai_api_key_here" errLlm [longArticle]
        = runPipeline "" errLlm [longArticle] :=
  ⟨placeholder_keys_treated_as_missing.2.2.2.2.2 errLlm [longArticle] [],
   placeholder_keys_treated_as_missing.2.2.2.2.1 errLlm [longArticle]⟩
